import Mathlib

/-!
Verification of the socket-agent client library against its specification.

Each section embeds one component of the Python source as executable Lean
definitions and proves the spec claims about it:

* Endpoint name table        — src/socketagentlib/client.py and
                               src/socket_agent_client/client.py
                               (`Client._build_endpoint_cache`,
                                `Client._generate_endpoint_name`)
* Token lifecycle manager    — src/socketagentlib/identity.py
                               (`TokenManager`, `IdentityClient.logout`)
* HTTP executor              — src/socketagentlib/executor.py
                               (`Executor._execute_with_retries`,
                                `Executor._parse_response`)
* Conversational orchestrator — src/socketagentlib/agent.py
                               (`SocketAgent.ask`, `SocketAgent._execute_tool_call`)
* Local-model tool-call extractor — src/socket_agent_client/llm/ollama.py
                               (`OllamaProvider._extract_tool_calls`)

Machine integers do not occur (Python ints are unbounded); time instants are
modelled as `Int` (Python `time.time()` floats are compared only with integral
offsets in the code under verification). Python exceptions are modelled as
`Except`/`Option` results.
-/

namespace SocketAgent

/-! ## Python dict as an association list

Python dicts are insertion ordered; assigning to an existing key overwrites in
place, so lookups see the last write for a key. `dictSet`/`dictGet` model
exactly that. -/

/-- Model of Python `d[k] = v`: replace the binding in place if the key is
present, otherwise append it. -/
def dictSet {α : Type} (d : List (String × α)) (k : String) (v : α) :
    List (String × α) :=
  match d with
  | [] => [(k, v)]
  | (k', v') :: rest => if k' = k then (k, v) :: rest else (k', v') :: dictSet rest k v

/-- Model of Python `d.get(k)`: the value bound to `k`, if any. -/
def dictGet {α : Type} : List (String × α) → String → Option α
  | [], _ => none
  | (k', v) :: rest, k => if k' = k then some v else dictGet rest k

theorem dictGet_dictSet {α : Type} (d : List (String × α)) (k q : String) (v : α) :
    dictGet (dictSet d k v) q = if q = k then some v else dictGet d q := by
  induction d with
  | nil =>
    simp [dictSet, dictGet, eq_comm]
  | cons hd tl ih =>
    obtain ⟨k', v'⟩ := hd
    by_cases h1 : k' = k
    · by_cases h2 : q = k
      · simp [dictSet, dictGet, h1, h2]
      · have h3 : ¬ k = q := fun h => h2 h.symm
        have h4 : ¬ k' = q := by rw [h1]; exact h3
        simp [dictSet, dictGet, h1, h2, h3, h4]
    · by_cases h2 : k' = q
      · have h3 : ¬ q = k := fun h => h1 (h2.trans h)
        simp [dictSet, dictGet, h1, h2, h3]
      · simp [dictSet, dictGet, h1, h2, ih]

/-! ## Endpoint name table

Embeds `Client._generate_endpoint_name` and `Client._build_endpoint_cache`,
which are textually identical in `src/socketagentlib/client.py` (lines
297-345) and `src/socket_agent_client/client.py` (lines 261-309). Only the
`Endpoint` fields that these functions read are modelled. -/

/-- An endpoint as read by the name-table builder: `path`, `method`,
`summary` and optional `operationId` (src/socket_agent_client/models.py). -/
structure Endpoint where
  path : String
  method : String
  summary : String
  operationId : Option String
deriving DecidableEq

/-- Opening brace character, written via its code point. -/
def braceOpen : Char := Char.ofNat 123

/-- Closing brace character, written via its code point. -/
def braceClose : Char := Char.ofNat 125

/-- Model of Python `s.strip(c)` for a single strip character: remove every
leading and trailing occurrence of `c`. -/
def stripChar (c : Char) (cs : List Char) : List Char :=
  ((cs.dropWhile (fun x => x == c)).reverse.dropWhile (fun x => x == c)).reverse

/-- Model of Python `s.split(sep)` for a one-character separator: the
segments between occurrences of `c`, empty segments kept, and a single empty
segment for the empty input. -/
def splitChar (c : Char) : List Char → List (List Char)
  | [] => [[]]
  | x :: rest =>
    let r := splitChar c rest
    if x == c then [] :: r
    else
      match r with
      | h :: t => (x :: h) :: t
      | [] => [[x]]

/-- Model of Python `sep.join(parts)`. -/
def joinSep (sep : List Char) : List (List Char) → List Char
  | [] => []
  | [p] => p
  | p :: rest => p ++ sep ++ joinSep sep rest

/-- Embedding of `Client._generate_endpoint_name`: split the path on `/`,
drop placeholder segments (those that start with an opening brace and end
with a closing brace), map the lowercased method to a verb (GET becomes
`get` when the path has a placeholder and `list` otherwise, POST `create`,
PUT `update`, PATCH `patch`, DELETE `delete`, anything else is kept
lowercased), and join verb and segments with underscores. -/
def generate_endpoint_name (ep : Endpoint) : String :=
  let parts0 := splitChar '/' (stripChar '/' ep.path.toList)
  let parts := parts0.filter
    (fun p => !(p.head? == some braceOpen && p.getLast? == some braceClose))
  let m0 := String.mk (ep.method.toList.map Char.toLower)
  let m :=
    if m0 = "get" then (if ep.path.toList.contains braceOpen then "get" else "list")
    else if m0 = "post" then "create"
    else if m0 = "put" then "update"
    else if m0 = "patch" then "patch"
    else if m0 = "delete" then "delete"
    else m0
  if parts.isEmpty then m
  else m ++ "_" ++ String.mk (joinSep ['_'] parts)

/-- One iteration of the loop in `Client._build_endpoint_cache`: register the
endpoint under its `operationId` (when present), then its generated name,
then its `method:path` composite key — in that source order. -/
def cacheStep (cache : List (String × Endpoint)) (ep : Endpoint) :
    List (String × Endpoint) :=
  let c1 := match ep.operationId with
    | some opId => dictSet cache opId ep
    | none => cache
  let c2 := dictSet c1 (generate_endpoint_name ep) ep
  dictSet c2 (ep.method ++ ":" ++ ep.path) ep

/-- Embedding of `Client._build_endpoint_cache`: starting from a cleared
cache, process the descriptor's endpoints in order. -/
def build_endpoint_cache (endpoints : List Endpoint) : List (String × Endpoint) :=
  endpoints.foldl cacheStep []

/-- The lookup keys one endpoint registers, in the order the source writes
them: operation identifier first (when present), then generated name, then
the `method:path` composite key. -/
def keysOf (ep : Endpoint) : List String :=
  (match ep.operationId with
   | some opId => [opId]
   | none => []) ++ [generate_endpoint_name ep, ep.method ++ ":" ++ ep.path]

/-- First-defined choice on options (used to state the fold invariant). -/
def orElseO {α : Type} (a b : Option α) : Option α :=
  match a with
  | some x => some x
  | none => b

/-- The last endpoint in the list that registers the key `k` under any of its
three keys — the reference semantics of a last-write-wins table. -/
def lastWrite : List Endpoint → String → Option Endpoint
  | [], _ => none
  | e :: rest, k =>
    match lastWrite rest k with
    | some e' => some e'
    | none => if k ∈ keysOf e then some e else none

theorem dictGet_cacheStep (cache : List (String × Endpoint)) (ep : Endpoint)
    (k : String) :
    dictGet (cacheStep cache ep) k =
      if k ∈ keysOf ep then some ep else dictGet cache k := by
  cases hop : ep.operationId with
  | none =>
    by_cases h1 : k = ep.method ++ ":" ++ ep.path <;>
      by_cases h2 : k = generate_endpoint_name ep <;>
        simp [cacheStep, keysOf, hop, dictGet_dictSet, h1, h2]
  | some opId =>
    by_cases h1 : k = ep.method ++ ":" ++ ep.path <;>
      by_cases h2 : k = generate_endpoint_name ep <;>
        by_cases h3 : k = opId <;>
          simp [cacheStep, keysOf, hop, dictGet_dictSet, h1, h2, h3]

theorem dictGet_foldl_cacheStep (es : List Endpoint) :
    ∀ (cache : List (String × Endpoint)) (k : String),
      dictGet (es.foldl cacheStep cache) k =
        orElseO (lastWrite es k) (dictGet cache k) := by
  induction es with
  | nil => intro cache k; simp [lastWrite, orElseO]
  | cons e rest ih =>
    intro cache k
    have step := dictGet_cacheStep cache e k
    cases hl : lastWrite rest k with
    | some e' =>
      simp [List.foldl_cons, ih, lastWrite, hl, orElseO]
    | none =>
      by_cases hk : k ∈ keysOf e <;>
        simp [List.foldl_cons, ih, lastWrite, hl, orElseO, step, hk]

/-- C1 (amended): the endpoint-name table resolves every lookup string to the
last endpoint in descriptor order that registers it under any of its three
keys (operation identifier written first when present, then generated name,
then the `method:path` composite key, last-write-wins across endpoints).
In particular an operation identifier does not take precedence: a later
endpoint whose generated name or composite key collides with it wins. -/
theorem C1_endpoint_table_last_write_wins (es : List Endpoint) (k : String) :
    dictGet (build_endpoint_cache es) k = lastWrite es k := by
  have h := dictGet_foldl_cacheStep es [] k
  rw [build_endpoint_cache, h]
  cases lastWrite es k <;> simp [orElseO, dictGet]

/-- Endpoint whose operation identifier is `list_items` (counterexample
input for C1). -/
def epA : Endpoint := ⟨"/foo", "GET", "Foo summary", some "list_items"⟩

/-- Endpoint without operation identifier whose generated name is
`list_items` (counterexample input for C1). -/
def epB : Endpoint := ⟨"/items", "GET", "Items summary", none⟩

/-- C1 (counterexample): `epA` owns operation identifier `list_items`, yet
after building the table over `[epA, epB]` the lookup of `list_items`
resolves to `epB`, whose generated name collides with it — the operation
identifier does not take precedence, contrary to the claim. -/
theorem C1_counterexample :
    dictGet (build_endpoint_cache [epA, epB]) "list_items" = some epB ∧
    epA.operationId = some "list_items" ∧
    epB.operationId ≠ some "list_items" ∧
    epA ≠ epB := by
  exact ⟨rfl, rfl, by decide, by decide⟩

/-! ## Token lifecycle manager

Embeds `TokenManager` and `IdentityClient.logout` from
src/socketagentlib/identity.py. The wall clock (`time.time()`) is passed
explicitly as an `Int`; mutation of `self` becomes state-passing. -/

/-- State of `TokenManager` (identity.py lines 40-74): access token, refresh
token and absolute expiry instant, each optional. -/
structure TokenManager where
  access_token : Option String
  refresh_token : Option String
  expires_at : Option Int
deriving DecidableEq

/-- Body of a login/refresh response (identity.py `TokenResponse`). -/
structure TokenResponse where
  access_token : String
  refresh_token : String
  expires_in : Int
  token_type : String
deriving DecidableEq

/-- Python truthiness of an optional string: `None` and the empty string are
falsy. -/
def truthyS : Option String → Bool
  | none => false
  | some s => !s.isEmpty

/-- Embedding of `TokenManager.set_tokens`: overwrite all three fields; the
expiry instant is the current time plus `expires_in`. The prior state `tm`
is irrelevant because every field is overwritten. -/
def TokenManager.set_tokens (_tm : TokenManager) (now : Int) (tr : TokenResponse) :
    TokenManager :=
  ⟨some tr.access_token, some tr.refresh_token, some (now + tr.expires_in)⟩

/-- Embedding of `TokenManager.is_expired`: a falsy `expires_at` (absent, or
the instant 0 under Python truthiness) is expired; otherwise the token is
expired strictly after the instant 30 time units before its expiry. -/
def TokenManager.is_expired (tm : TokenManager) (now : Int) : Bool :=
  match tm.expires_at with
  | none => true
  | some e => if e = 0 then true else decide (now > e - 30)

/-- Embedding of `TokenManager.has_valid_token`: an access token is present
(`is not None` — Python identity test, not truthiness) and not expired. -/
def TokenManager.has_valid_token (tm : TokenManager) (now : Int) : Bool :=
  tm.access_token.isSome && !(tm.is_expired now)

/-- Embedding of `TokenManager.get_auth_header`: a Bearer `Authorization`
header when the access token is truthy (present and non-empty), else
nothing. The expiry instant is not read. -/
def TokenManager.get_auth_header (tm : TokenManager) : Option (String × String) :=
  match tm.access_token with
  | some s => if s.isEmpty then none else some ("Authorization", "Bearer " ++ s)
  | none => none

/-- Embedding of `TokenManager.clear`: all three fields reset. -/
def TokenManager.clearTokens : TokenManager := ⟨none, none, none⟩

/-- Outcome of the single network call made by `IdentityClient.logout`:
either the identity service answered (status ignored by the code) or the
request failed with a transport error. -/
inductive LogoutNet where
  | ok (status : Nat)
  | requestError (msg : String)
deriving DecidableEq

/-- Embedding of `IdentityClient.logout` (identity.py lines 159-180): an
early return leaves the state untouched when no (truthy) refresh token is
stored; otherwise the network call runs, a transport error is swallowed, and
the `finally` block clears the token state. The `Except` result records that
no exception path exists: every branch returns `.ok`. -/
def IdentityClient.logout (tm : TokenManager) (net : LogoutNet) :
    Except String TokenManager :=
  if truthyS tm.refresh_token = false then
    Except.ok tm
  else
    match net with
    | LogoutNet.ok _ => Except.ok TokenManager.clearTokens
    | LogoutNet.requestError _ => Except.ok TokenManager.clearTokens

/-- C4 (amended): when a refresh token is stored, logout clears the local
token state unconditionally — including when the network call fails, which is
swallowed rather than surfaced (the result is `.ok` for every network
outcome). When no refresh token is stored, logout returns early and does not
touch the state, so a lone access token survives (see the counterexample). -/
theorem C4_logout_clears_when_refresh_present (tm : TokenManager)
    (net : LogoutNet) (h : truthyS tm.refresh_token = true) :
    IdentityClient.logout tm net = Except.ok TokenManager.clearTokens ∧
    TokenManager.clearTokens.access_token = none ∧
    TokenManager.clearTokens.refresh_token = none ∧
    TokenManager.clearTokens.expires_at = none := by
  refine ⟨?_, rfl, rfl, rfl⟩
  cases net <;> simp [IdentityClient.logout, h]

/-- Witness for C4: a fully-populated token state is cleared by logout even
when the network call fails with a transport error. -/
theorem C4_logout_clears_witness :
    truthyS (⟨some "a", some "r", some 99⟩ : TokenManager).refresh_token = true ∧
    (IdentityClient.logout ⟨some "a", some "r", some 99⟩
        (LogoutNet.requestError "connection refused") =
      Except.ok TokenManager.clearTokens ∧
    TokenManager.clearTokens.access_token = none ∧
    TokenManager.clearTokens.refresh_token = none ∧
    TokenManager.clearTokens.expires_at = none) :=
  ⟨rfl, C4_logout_clears_when_refresh_present ⟨some "a", some "r", some 99⟩
    (LogoutNet.requestError "connection refused") rfl⟩

/-- C4 (counterexample): in the state holding only an access token (no
refresh token), logout returns with the state unchanged — the access token is
not cleared, refuting the claim that token state is cleared unconditionally
in all states. -/
theorem C4_counterexample :
    IdentityClient.logout ⟨some "a", none, some 100⟩ (LogoutNet.ok 200) =
      Except.ok (⟨some "a", none, some 100⟩ : TokenManager) ∧
    (⟨some "a", none, some 100⟩ : TokenManager).access_token ≠ none := by
  exact ⟨rfl, by decide⟩

/-- C6: a token stored at instant `t0 ≥ 0` with `expires_in = 60` is valid
immediately (0 elapsed) and invalid once 31 or more units have elapsed;
indeed the expiry check flips exactly 30 units before the literal expiry:
still unexpired at 30 elapsed, expired at 31. -/
theorem C6_expiry_buffer (t0 e : Int) (tr : TokenResponse)
    (h60 : tr.expires_in = 60) (ht0 : 0 ≤ t0) (he : 31 ≤ e) :
    (TokenManager.clearTokens.set_tokens t0 tr).has_valid_token t0 = true ∧
    (TokenManager.clearTokens.set_tokens t0 tr).has_valid_token (t0 + e) = false ∧
    (TokenManager.clearTokens.set_tokens t0 tr).is_expired (t0 + 30) = false ∧
    (TokenManager.clearTokens.set_tokens t0 tr).is_expired (t0 + 31) = true := by
  have hne : ¬ (t0 + (60 : Int)) = 0 := by omega
  have hexp : ∀ now : Int,
      (TokenManager.clearTokens.set_tokens t0 tr).is_expired now =
        decide (now > t0 + 60 - 30) := by
    intro now
    simp only [TokenManager.set_tokens, TokenManager.is_expired, h60]
    rw [if_neg hne]
  have hacc : (TokenManager.clearTokens.set_tokens t0 tr).access_token =
      some tr.access_token := rfl
  refine ⟨?_, ?_, ?_, ?_⟩
  · unfold TokenManager.has_valid_token
    rw [hacc, hexp, Option.isSome_some, Bool.true_and, Bool.not_eq_true',
      decide_eq_false_iff_not]
    omega
  · unfold TokenManager.has_valid_token
    rw [hacc, hexp, Option.isSome_some, Bool.true_and, Bool.not_eq_false',
      decide_eq_true_eq]
    omega
  · rw [hexp, decide_eq_false_iff_not]
    omega
  · rw [hexp, decide_eq_true_eq]
    omega

/-- Witness for C6 at issuance time 1000 and 31 elapsed units. -/
theorem C6_expiry_buffer_witness :
    (⟨"a", "r", 60, "bearer"⟩ : TokenResponse).expires_in = 60 ∧
    (0 : Int) ≤ 1000 ∧ (31 : Int) ≤ 31 ∧
    ((TokenManager.clearTokens.set_tokens 1000 ⟨"a", "r", 60, "bearer"⟩).has_valid_token
        1000 = true ∧
    (TokenManager.clearTokens.set_tokens 1000 ⟨"a", "r", 60, "bearer"⟩).has_valid_token
        (1000 + 31) = false ∧
    (TokenManager.clearTokens.set_tokens 1000 ⟨"a", "r", 60, "bearer"⟩).is_expired
        (1000 + 30) = false ∧
    (TokenManager.clearTokens.set_tokens 1000 ⟨"a", "r", 60, "bearer"⟩).is_expired
        (1000 + 31) = true) :=
  ⟨rfl, by decide, by decide,
    C6_expiry_buffer 1000 31 ⟨"a", "r", 60, "bearer"⟩ rfl (by decide) (by decide)⟩

/-- C10 (amended): `get_auth_header` returns the Bearer header exactly when a
non-empty access token string is stored, regardless of the expiry instant or
refresh token (the conclusion depends only on `access_token`); it returns
`None` if and only if the access token is absent or is the empty string
(Python truthiness). -/
theorem C10_auth_header_ignores_expiry (tm tm2 : TokenManager) (s : String)
    (h1 : tm.access_token = some s) (h2 : s.isEmpty = false) :
    tm.get_auth_header = some ("Authorization", "Bearer " ++ s) ∧
    (tm2.get_auth_header = none ↔
      (tm2.access_token = none ∨ tm2.access_token = some "")) := by
  constructor
  · simp [TokenManager.get_auth_header, h1, h2]
  · cases ha : tm2.access_token with
    | none => simp [TokenManager.get_auth_header, ha]
    | some s' =>
      simp only [TokenManager.get_auth_header, ha]
      by_cases hs : s'.isEmpty = true
      · rw [if_pos hs]
        have hs' : s' = "" := (String.isEmpty_iff s').mp hs
        simp [hs']
      · rw [if_neg hs]
        have hs' : ¬ s' = "" := by
          intro h
          exact hs (by rw [h]; rfl)
        simp [hs']

/-- Witness for C10: a stored non-empty token in a state whose expiry is
already past (expiry instant 1, so any positive clock is beyond it) still
yields the Bearer header; a state with no access token maps to `none`. -/
theorem C10_auth_header_witness :
    (⟨some "tok", none, some 1⟩ : TokenManager).access_token = some "tok" ∧
    "tok".isEmpty = false ∧
    ((⟨some "tok", none, some 1⟩ : TokenManager).get_auth_header =
        some ("Authorization", "Bearer " ++ "tok") ∧
    ((⟨none, some "r", some 5⟩ : TokenManager).get_auth_header = none ↔
      ((⟨none, some "r", some 5⟩ : TokenManager).access_token = none ∨
       (⟨none, some "r", some 5⟩ : TokenManager).access_token = some ""))) :=
  ⟨rfl, rfl,
    C10_auth_header_ignores_expiry ⟨some "tok", none, some 1⟩
      ⟨none, some "r", some 5⟩ "tok" rfl rfl⟩

/-- C10 (counterexample): with the empty string stored as access token the
code returns no header, although an access token string (the empty one) is
stored — the claimed "None if and only if no access token is stored"
equivalence fails at this state. -/
theorem C10_counterexample :
    (⟨some "", none, none⟩ : TokenManager).get_auth_header = none ∧
    (⟨some "", none, none⟩ : TokenManager).access_token ≠ none := by
  exact ⟨rfl, by decide⟩

/-! ## HTTP executor

Embeds `Executor._execute_with_retries` and `Executor._parse_response` from
src/socketagentlib/executor.py. The network is modelled as a function from
the attempt number to the outcome of that attempt's `httpx` request; the
`for attempt in range(max_retries)` loop becomes structural recursion on the
number of remaining iterations, threading the loop's `last_error` and the
list of backoff sleeps performed (one entry per `time.sleep` call, in
seconds). -/

/-- A decoded Python/JSON value, as `_parse_response` and the pydantic
validation of `APIResponse` distinguish them: `None`, booleans, numbers
(modelled as integers — only their truthiness matters on the inspected
paths), strings, arrays and objects. -/
inductive PyVal where
  | null
  | boolean (b : Bool)
  | num (n : Int)
  | str (s : String)
  | arr (elems : List PyVal)
  | dict (fields : List (String × PyVal))

/-- Python truthiness of a decoded value: `None`, `False`, `0` and the empty
string/list/dict are falsy. -/
def PyVal.truthy : PyVal → Bool
  | PyVal.null => false
  | PyVal.boolean b => b
  | PyVal.num n => decide (n ≠ 0)
  | PyVal.str s => !s.isEmpty
  | PyVal.arr l => !l.isEmpty
  | PyVal.dict fs => !fs.isEmpty

/-- Whether a decoded value is a Python `str`. -/
def PyVal.isStr : PyVal → Bool
  | PyVal.str _ => true
  | _ => false

/-- The string content of a value known to be a string (`""` otherwise; only
applied under a string-ness hypothesis). -/
def pyStrVal : PyVal → String
  | PyVal.str s => s
  | _ => ""

/-- Model of Python `d.get(k)` on a decoded JSON object: the bound value, or
`None` when the key is absent. -/
def pyGet (fs : List (String × PyVal)) (k : String) : PyVal :=
  (dictGet fs k).getD PyVal.null

/-- Python `a or b`: `a` when truthy, else `b`. -/
def pyOrV (a b : PyVal) : PyVal := if a.truthy then a else b

/-- The body of an HTTP response as `_parse_response` probes it: no content,
content that parses as JSON, or content whose JSON parse fails (in which
case the raw text is used, and empty text degrades to `None`). -/
inductive Body where
  | empty
  | jsonVal (v : PyVal)
  | notJson (txt : String)

/-- An HTTP response as read by the executor: status code, reason phrase,
optional `Retry-After` header and body. -/
structure HttpResponse where
  status : Nat
  reason : String
  retry_after : Option String
  body : Body

/-- The `data` computed by the first half of `_parse_response`: `None` for an
empty body, the parsed JSON on success, else the raw text (or `None` when
that text is empty). -/
def decodeBody : Body → PyVal
  | Body.empty => PyVal.null
  | Body.jsonVal v => v
  | Body.notJson t => if t.isEmpty then PyVal.null else PyVal.str t

/-- Model of the `APIResponse` fields produced by `_parse_response`
(headers and duration are omitted: no claim mentions them and wall-clock
duration is not modelled). The source model is pydantic with
`error : Optional[str]`, so only `None` or a string can be stored there. -/
structure APIResponse where
  success : Bool
  status_code : Nat
  data : PyVal
  error : Option String

/-- Stand-in for the message of the `pydantic.ValidationError` raised when a
truthy non-string value is assigned to the `error : Optional[str]` field of
the pydantic `APIResponse` model (socket_agent_client/models.py). The real
text is pydantic's multi-line report; no claim reads it, so a fixed marker
stands for it. -/
def validationErrorMsg : String := "1 validation error for APIResponse"

/-- Embedding of `Executor._parse_response`: decode the body, mark success
for statuses in [200, 400), and on failure compute the error value via
`data.get("error") or data.get("message") or "HTTP {code}"` for a dict body
and the status line `"HTTP {code}: {reason}"` otherwise. Constructing the
pydantic `APIResponse` then validates `error : Optional[str]`: `None` and
strings pass, while a truthy non-string error value (e.g. a dict or number)
raises a `ValidationError` — the `Except.error` case. -/
def parse_response (r : HttpResponse) : Except String APIResponse :=
  let data := decodeBody r.body
  let success : Bool := decide (200 ≤ r.status) && decide (r.status < 400)
  if success then
    Except.ok ⟨success, r.status, data, none⟩
  else
    match data with
    | PyVal.dict fs =>
      match pyOrV (pyGet fs "error")
          (pyOrV (pyGet fs "message") (PyVal.str ("HTTP " ++ toString r.status))) with
      | PyVal.str s => Except.ok ⟨success, r.status, data, some s⟩
      | PyVal.null => Except.ok ⟨success, r.status, data, none⟩
      | _ => Except.error validationErrorMsg
    | _ =>
      Except.ok ⟨success, r.status, data,
        some ("HTTP " ++ toString r.status ++ ": " ++ r.reason)⟩

/-- Outcome of one `client.request(...)` call inside the retry loop: a
response arrived, or the call raised `httpx.TimeoutException`,
`httpx.RequestError`, or some other exception. -/
inductive Outcome where
  | resp (r : HttpResponse)
  | timeout (msg : String)
  | reqError (msg : String)
  | unexpected (msg : String)

/-- The typed errors the executor raises (exceptions.py), with their
messages. -/
inductive ExecError where
  | rateLimitErr (msg : String)
  | authErr (msg : String)
  | timeoutErr (msg : String)
  | executionErr (msg : String)
deriving DecidableEq

/-- Result of one `_execute_with_retries` run: the returned response or
raised error, the backoff sleeps performed (in order), and the number of
attempts (loop iterations that issued a request). -/
structure RunResult where
  result : Except ExecError APIResponse
  sleeps : List Nat
  attempts : Nat

/-- The code after the loop: `raise last_error` when one was recorded, else
the generic execution error. -/
def raiseLast (lastError : Option ExecError) : Except ExecError APIResponse :=
  match lastError with
  | some e => Except.error e
  | none => Except.error (ExecError.executionErr "Request failed after all retries")

/-- Embedding of the loop body of `Executor._execute_with_retries`.
`remaining` counts the iterations `range(max_retries)` still has to run
(initially `maxRetries`, so `attempt + remaining = maxRetries` throughout).
A 429 response raises the rate-limit error and 401/403 the authentication
error, both re-raised immediately by the dedicated `except` clause; other
responses return `_parse_response` — unless its pydantic validation raises,
in which case the loop's final `except Exception` clause records
`ExecutionError("Unexpected error: {e}")` and breaks, raising it after the
loop. A timeout or request error records `last_error` and sleeps
`2 ** attempt` only when this is not the final iteration; any other
exception breaks out of the loop at once. -/
def retryGo (transport : Nat → Outcome) (maxRetries : Nat) :
    Nat → Nat → Option ExecError → List Nat → RunResult
  | 0, attempt, lastError, sleeps => ⟨raiseLast lastError, sleeps, attempt⟩
  | remaining + 1, attempt, _lastError, sleeps =>
    match transport attempt with
    | Outcome.resp r =>
      if r.status = 429 then
        ⟨Except.error (ExecError.rateLimitErr
            ("Rate limited. Retry after " ++ r.retry_after.getD "60" ++ " seconds")),
          sleeps, attempt + 1⟩
      else if r.status = 401 ∨ r.status = 403 then
        ⟨Except.error (ExecError.authErr
            ("Authentication failed: " ++ toString r.status)),
          sleeps, attempt + 1⟩
      else
        match parse_response r with
        | Except.ok resp => ⟨Except.ok resp, sleeps, attempt + 1⟩
        | Except.error msg =>
          ⟨raiseLast (some (ExecError.executionErr ("Unexpected error: " ++ msg))),
            sleeps, attempt + 1⟩
    | Outcome.timeout msg =>
      if attempt < maxRetries - 1 then
        retryGo transport maxRetries remaining (attempt + 1)
          (some (ExecError.timeoutErr ("Request timed out: " ++ msg)))
          (sleeps ++ [2 ^ attempt])
      else
        retryGo transport maxRetries remaining (attempt + 1)
          (some (ExecError.timeoutErr ("Request timed out: " ++ msg))) sleeps
    | Outcome.reqError msg =>
      if attempt < maxRetries - 1 then
        retryGo transport maxRetries remaining (attempt + 1)
          (some (ExecError.executionErr ("Request failed: " ++ msg)))
          (sleeps ++ [2 ^ attempt])
      else
        retryGo transport maxRetries remaining (attempt + 1)
          (some (ExecError.executionErr ("Request failed: " ++ msg))) sleeps
    | Outcome.unexpected msg =>
      ⟨raiseLast (some (ExecError.executionErr ("Unexpected error: " ++ msg))),
        sleeps, attempt + 1⟩

/-- Embedding of `Executor._execute_with_retries`: run the loop from attempt
0 with no recorded error and no sleeps. -/
def executeWithRetries (maxRetries : Nat) (transport : Nat → Outcome) : RunResult :=
  retryGo transport maxRetries maxRetries 0 none []

/-- The backoff schedule the amended claim C2 describes: `k` sleeps whose
delays start at `2 ^ attempt` and double each attempt. -/
def powsFrom : Nat → Nat → List Nat
  | _, 0 => []
  | a, k + 1 => 2 ^ a :: powsFrom (a + 1) k

theorem retryGo_timeout (msg : String) :
    ∀ (remaining attempt n : Nat) (le : Option ExecError) (sleeps : List Nat),
      1 ≤ remaining → attempt + remaining = n →
      retryGo (fun _ => Outcome.timeout msg) n remaining attempt le sleeps =
        ⟨Except.error (ExecError.timeoutErr ("Request timed out: " ++ msg)),
          sleeps ++ powsFrom attempt (remaining - 1), n⟩ := by
  intro remaining
  induction remaining with
  | zero => intro attempt n le sleeps h1 _; omega
  | succ rem ih =>
    intro attempt n le sleeps _ h2
    cases rem with
    | zero =>
      have hlast : ¬ attempt < n - 1 := by omega
      simp only [retryGo, if_neg hlast, powsFrom, List.append_nil]
      have : attempt + 1 = n := by omega
      rw [this]
      rfl
    | succ rem' =>
      have hmid : attempt < n - 1 := by omega
      have hstep :
          retryGo (fun _ => Outcome.timeout msg) n (rem' + 1 + 1) attempt le sleeps =
            retryGo (fun _ => Outcome.timeout msg) n (rem' + 1) (attempt + 1)
              (some (ExecError.timeoutErr ("Request timed out: " ++ msg)))
              (sleeps ++ [2 ^ attempt]) := by
        simp only [retryGo]
        rw [if_pos hmid]
      rw [hstep, ih (attempt + 1) n
        (some (ExecError.timeoutErr ("Request timed out: " ++ msg)))
        (sleeps ++ [2 ^ attempt]) (by omega) (by omega)]
      simp [powsFrom, List.append_assoc]

/-- C2 (amended): with `max_retries = n ≥ 1` and a transport that times out
on every attempt, the executor makes exactly `n` attempts, sleeping the
backoff delays `2 ^ 0, 2 ^ 1, ...` (the delay doubles each attempt, starting
at 1 time unit) between consecutive attempts — `n - 1` sleeps in total, with
no sleep after the final attempt — and then raises the timeout error. For
the claim's `max_retries = 3` this is 3 attempts with sleeps `d, 2d` only;
the claimed third delay `4d` never occurs (see the counterexample). -/
theorem C2_retry_backoff (n : Nat) (msg : String) (h : 1 ≤ n) :
    executeWithRetries n (fun _ => Outcome.timeout msg) =
      ⟨Except.error (ExecError.timeoutErr ("Request timed out: " ++ msg)),
        powsFrom 0 (n - 1), n⟩ := by
  have := retryGo_timeout msg n 0 n none [] h (by omega)
  simpa [executeWithRetries] using this

/-- Witness for C2 at `max_retries = 3`: three attempts, sleeps
`[1, 2] = powsFrom 0 2`, and the timeout error raised. -/
theorem C2_retry_backoff_witness :
    1 ≤ 3 ∧
    executeWithRetries 3 (fun _ => Outcome.timeout "read timed out") =
      ⟨Except.error (ExecError.timeoutErr ("Request timed out: " ++ "read timed out")),
        powsFrom 0 (3 - 1), 3⟩ :=
  ⟨by decide, C2_retry_backoff 3 "read timed out" (by decide)⟩

/-- C2 (counterexample): with `max_retries = 3` and an always-timing-out
transport the executor performs exactly the two backoff sleeps `d = 1` and
`2d = 2` before raising the timeout error — not the claimed three sleeps
`d, 2d, 4d`; no sleep of `4` occurs. -/
theorem C2_counterexample :
    (executeWithRetries 3 (fun _ => Outcome.timeout "t")).sleeps = [1, 2] ∧
    (executeWithRetries 3 (fun _ => Outcome.timeout "t")).sleeps ≠ [1, 2, 4] ∧
    (executeWithRetries 3 (fun _ => Outcome.timeout "t")).attempts = 3 ∧
    (executeWithRetries 3 (fun _ => Outcome.timeout "t")).result =
      Except.error (ExecError.timeoutErr "Request timed out: t") := by
  exact ⟨rfl, by decide, rfl, rfl⟩

/-- C3: when the first attempt's response has status 429 (and likewise 401
or 403), the executor raises immediately — the rate-limit error for 429, the
authentication error for 401/403 — with zero backoff sleeps and exactly one
attempt consumed, for any configured `max_retries ≥ 1`. -/
theorem C3_no_retry_on_429_401_403 (n : Nat) (transport : Nat → Outcome)
    (r : HttpResponse) (h1 : 1 ≤ n) (h2 : transport 0 = Outcome.resp r)
    (h3 : r.status = 429 ∨ r.status = 401 ∨ r.status = 403) :
    executeWithRetries n transport =
      ⟨Except.error
          (if r.status = 429 then
            ExecError.rateLimitErr
              ("Rate limited. Retry after " ++ r.retry_after.getD "60" ++ " seconds")
          else
            ExecError.authErr ("Authentication failed: " ++ toString r.status)),
        [], 1⟩ := by
  obtain ⟨m, rfl⟩ : ∃ m, n = m + 1 := ⟨n - 1, by omega⟩
  rcases h3 with h3 | h3 | h3 <;>
    simp [executeWithRetries, retryGo, h2, h3]

/-- Witness for C3: a concrete 429 response with a `Retry-After` header is
surfaced as the rate-limit error after one attempt and no sleeps. -/
theorem C3_no_retry_witness :
    1 ≤ 1 ∧
    ((fun _ => Outcome.resp ⟨429, "Too Many Requests", some "120", Body.empty⟩) 0 =
      Outcome.resp ⟨429, "Too Many Requests", some "120", Body.empty⟩) ∧
    executeWithRetries 1
        (fun _ => Outcome.resp ⟨429, "Too Many Requests", some "120", Body.empty⟩) =
      ⟨Except.error
          (if (429 : Nat) = 429 then
            ExecError.rateLimitErr
              ("Rate limited. Retry after " ++ (some "120").getD "60" ++ " seconds")
          else
            ExecError.authErr ("Authentication failed: " ++ toString (429 : Nat))),
        [], 1⟩ :=
  ⟨by decide, rfl,
    C3_no_retry_on_429_401_403 1
      (fun _ => Outcome.resp ⟨429, "Too Many Requests", some "120", Body.empty⟩)
      ⟨429, "Too Many Requests", some "120", Body.empty⟩
      (by decide) rfl (Or.inl rfl)⟩

/-- The proviso of the amended claim C5: the body is not a JSON object, or
its truthy `error` and `message` values (when truthy) are strings — exactly
the bodies for which the pydantic validation of the constructed result
cannot fail. -/
def stringlyTyped (d : PyVal) : Bool :=
  match d with
  | PyVal.dict fs =>
    (!(pyGet fs "error").truthy || (pyGet fs "error").isStr) &&
    (!(pyGet fs "message").truthy || (pyGet fs "message").isStr)
  | _ => true

/-- The error message the amended claim C5 describes: for a JSON-object
body, the truthy `error` field's string, else the truthy `message`
field's string, else the HTTP status fallback; for any other body the
HTTP status line. This second definition follows the claim's words and
is compared against `parse_response`. -/
def specErrorMessage (r : HttpResponse) : String :=
  match decodeBody r.body with
  | PyVal.dict fs =>
    if (pyGet fs "error").truthy then pyStrVal (pyGet fs "error")
    else if (pyGet fs "message").truthy then pyStrVal (pyGet fs "message")
    else "HTTP " ++ toString r.status
  | _ => "HTTP " ++ toString r.status ++ ": " ++ r.reason

theorem truthy_str_shape (v : PyVal) (ht : v.truthy = true)
    (hstr : v.isStr = true) : ∃ s, v = PyVal.str s ∧ s.isEmpty = false := by
  cases v with
  | str s =>
    refine ⟨s, rfl, ?_⟩
    simpa [PyVal.truthy] using ht
  | null => simp [PyVal.isStr] at hstr
  | boolean b => simp [PyVal.isStr] at hstr
  | num n => simp [PyVal.isStr] at hstr
  | arr l => simp [PyVal.isStr] at hstr
  | dict fs => simp [PyVal.isStr] at hstr

theorem parse_response_ok_of_stringly (r : HttpResponse)
    (h6 : stringlyTyped (decodeBody r.body) = true) :
    parse_response r =
      Except.ok ⟨decide (200 ≤ r.status) && decide (r.status < 400), r.status,
        decodeBody r.body,
        if 200 ≤ r.status ∧ r.status < 400 then none
        else some (specErrorMessage r)⟩ := by
  by_cases hok : 200 ≤ r.status ∧ r.status < 400
  · have hs : (decide (200 ≤ r.status) && decide (r.status < 400)) = true := by
      simp [hok.1, hok.2]
    simp [parse_response, hs, hok]
  · have hs : (decide (200 ≤ r.status) && decide (r.status < 400)) = false := by
      rcases Nat.lt_or_ge r.status 200 with h | h
      · simp [Nat.not_le_of_lt h]
      · have h400 : ¬ r.status < 400 := fun hh => hok ⟨h, hh⟩
        simp [h400]
    cases hb : decodeBody r.body with
    | dict fs =>
      have h6b := h6
      rw [hb] at h6b
      simp only [stringlyTyped, Bool.and_eq_true, Bool.or_eq_true,
        Bool.not_eq_true'] at h6b
      obtain ⟨he, hm⟩ := h6b
      by_cases het : (pyGet fs "error").truthy = true
      · have hestr : (pyGet fs "error").isStr = true := by
          rcases he with he | he
          · rw [he] at het
            cases het
          · exact he
        obtain ⟨s, hsv, hse⟩ := truthy_str_shape (pyGet fs "error") het hestr
        rw [hsv] at het
        simp [parse_response, specErrorMessage, hb, hs, hok, hsv, pyOrV, het,
          pyStrVal]
      · have hef : (pyGet fs "error").truthy = false := by
          revert het
          cases (pyGet fs "error").truthy <;> simp
        by_cases hmt : (pyGet fs "message").truthy = true
        · have hmstr : (pyGet fs "message").isStr = true := by
            rcases hm with hm | hm
            · rw [hm] at hmt
              cases hmt
            · exact hm
          obtain ⟨s, hsv, hse⟩ := truthy_str_shape (pyGet fs "message") hmt hmstr
          rw [hsv] at hmt
          simp [parse_response, specErrorMessage, hb, hs, hok, hsv, pyOrV, hef,
            hmt, pyStrVal]
        · have hmf : (pyGet fs "message").truthy = false := by
            revert hmt
            cases (pyGet fs "message").truthy <;> simp
          simp [parse_response, specErrorMessage, hb, hs, hok, pyOrV, hef, hmf]
    | null => simp [parse_response, specErrorMessage, hb, hs, hok]
    | boolean b => simp [parse_response, specErrorMessage, hb, hs, hok]
    | num n => simp [parse_response, specErrorMessage, hb, hs, hok]
    | str s => simp [parse_response, specErrorMessage, hb, hs, hok]
    | arr l => simp [parse_response, specErrorMessage, hb, hs, hok]

/-- C5 (amended): a first-attempt response whose status is none of 429, 401,
403, and whose JSON body is covered by `stringlyTyped` (not a JSON object,
or its truthy `error`/`message` values are strings), is returned — not
raised — as a completed result after exactly one attempt and no sleeps; its
`success` flag is true exactly for statuses in [200, 400), and for failing
statuses the error message is the dict body's truthy `error` string,
else its truthy `message` string, else the HTTP status fallback (the status
line for non-dict bodies), per `specErrorMessage`. For a truthy non-string
`error`/`message` value the executor instead raises (see the
counterexample). -/
theorem C5_non_2xx_completed_result (n : Nat) (transport : Nat → Outcome)
    (r : HttpResponse) (h1 : 1 ≤ n) (h2 : transport 0 = Outcome.resp r)
    (h3 : ¬ r.status = 429) (h4 : ¬ r.status = 401) (h5 : ¬ r.status = 403)
    (h6 : stringlyTyped (decodeBody r.body) = true) :
    ∃ resp : APIResponse,
      parse_response r = Except.ok resp ∧
      executeWithRetries n transport = ⟨Except.ok resp, [], 1⟩ ∧
      (resp.success = true ↔ (200 ≤ r.status ∧ r.status < 400)) ∧
      resp.status_code = r.status ∧
      resp.data = decodeBody r.body ∧
      resp.error = (if 200 ≤ r.status ∧ r.status < 400 then none
                    else some (specErrorMessage r)) := by
  have hp := parse_response_ok_of_stringly r h6
  refine ⟨_, hp, ?_, ?_, rfl, rfl, rfl⟩
  · obtain ⟨m, rfl⟩ : ∃ m, n = m + 1 := ⟨n - 1, by omega⟩
    simp [executeWithRetries, retryGo, h2, h3, h4, h5, hp]
  · simp

/-- Witness for C5: a 500 response whose JSON body has an empty-string
`error` field and the message `boom` completes with `success = false` and
the `boom` message, after one attempt and no sleeps. -/
theorem C5_non_2xx_witness :
    1 ≤ 1 ∧
    ((fun _ => Outcome.resp
        ⟨500, "Internal Server Error", none,
          Body.jsonVal (PyVal.dict
            [("error", PyVal.str ""), ("message", PyVal.str "boom")])⟩) 0 =
      Outcome.resp ⟨500, "Internal Server Error", none,
        Body.jsonVal (PyVal.dict
          [("error", PyVal.str ""), ("message", PyVal.str "boom")])⟩) ∧
    stringlyTyped (decodeBody
      (⟨500, "Internal Server Error", none,
        Body.jsonVal (PyVal.dict
          [("error", PyVal.str ""), ("message", PyVal.str "boom")])⟩ :
            HttpResponse).body) = true ∧
    (∃ resp : APIResponse,
      parse_response
          ⟨500, "Internal Server Error", none,
            Body.jsonVal (PyVal.dict
              [("error", PyVal.str ""), ("message", PyVal.str "boom")])⟩ =
        Except.ok resp ∧
      executeWithRetries 1
          (fun _ => Outcome.resp
            ⟨500, "Internal Server Error", none,
              Body.jsonVal (PyVal.dict
                [("error", PyVal.str ""), ("message", PyVal.str "boom")])⟩) =
        ⟨Except.ok resp, [], 1⟩ ∧
      (resp.success = true ↔ (200 ≤ 500 ∧ 500 < 400)) ∧
      resp.status_code = 500 ∧
      resp.data = decodeBody
        (⟨500, "Internal Server Error", none,
          Body.jsonVal (PyVal.dict
            [("error", PyVal.str ""), ("message", PyVal.str "boom")])⟩ :
              HttpResponse).body ∧
      resp.error = (if 200 ≤ 500 ∧ 500 < 400 then none
                    else some (specErrorMessage
                      ⟨500, "Internal Server Error", none,
                        Body.jsonVal (PyVal.dict
                          [("error", PyVal.str ""),
                            ("message", PyVal.str "boom")])⟩))) :=
  ⟨by decide, rfl, by decide,
    C5_non_2xx_completed_result 1
      (fun _ => Outcome.resp
        ⟨500, "Internal Server Error", none,
          Body.jsonVal (PyVal.dict
            [("error", PyVal.str ""), ("message", PyVal.str "boom")])⟩)
      ⟨500, "Internal Server Error", none,
        Body.jsonVal (PyVal.dict
          [("error", PyVal.str ""), ("message", PyVal.str "boom")])⟩
      (by decide) rfl (by decide) (by decide) (by decide) (by decide)⟩

/-- A 500 response whose JSON body carries a truthy non-string `error` value
(counterexample input for C5). -/
def respC5bad : HttpResponse :=
  ⟨500, "Internal Server Error", none,
    Body.jsonVal (PyVal.dict [("error", PyVal.dict [("code", PyVal.num 5)])])⟩

/-- C5 (counterexample): for the 500 response `respC5bad` — a status the
claim covers — the executor does not return a completed result: the truthy
dict bound to `error` fails the pydantic `Optional[str]` validation, and the
loop's final `except Exception` clause converts the `ValidationError`
into a raised `ExecutionError("Unexpected error: ...")` after one attempt,
refuting the claim that every such response is returned rather than
raised. -/
theorem C5_counterexample :
    executeWithRetries 1 (fun _ => Outcome.resp respC5bad) =
      ⟨Except.error (ExecError.executionErr
          ("Unexpected error: " ++ validationErrorMsg)), [], 1⟩ ∧
    parse_response respC5bad = Except.error validationErrorMsg ∧
    (¬ respC5bad.status = 429 ∧ ¬ respC5bad.status = 401 ∧
      ¬ respC5bad.status = 403 ∧
      ¬ (200 ≤ respC5bad.status ∧ respC5bad.status < 400)) := by
  exact ⟨rfl, rfl, by decide⟩

/-! ## Conversational orchestrator

Embeds `SocketAgent.ask` and `SocketAgent._execute_tool_call` from
src/socketagentlib/agent.py. The two LLM completions are external calls, so
their outcomes (a response, or a raised exception's message) are inputs;
likewise each tool call carries the outcomes of its own `json.loads`
argument parse and its `client.call` invocation, which makes
`_execute_tool_call` a pure function. The message list composed inside `ask`
cannot raise and is consumed only by the environment-supplied completions,
so it is not rebuilt here; the conversation history and the tool-result
records — the observables the claims are about — are returned. -/

/-- A conversation-history message: role tag and content. -/
structure Msg where
  role : String
  content : String
deriving DecidableEq

/-- One tool call requested by the LLM, bundled with the outcomes of the two
fallible steps `_execute_tool_call` runs for it: parsing its argument
payload (`json.loads`) and executing it via `client.call`. An `Except.error`
carries the raised exception's message. -/
structure ToolCallSpec where
  id : String
  name : String
  argumentsRaw : String
  parseOutcome : Except String Unit
  callOutcome : Except String APIResponse

/-- The uniform tool-result record `_execute_tool_call` returns
(`success`, `data` on success, `error` on failure, `status_code`). -/
structure ToolResult where
  success : Bool
  data : PyVal
  error : Option String
  status_code : Nat

/-- Embedding of `SocketAgent._execute_tool_call`: an exception in argument
parsing or execution is caught and becomes a failure record with status 0; a
completed call yields a success or failure record from the response. -/
def execute_tool_call (tc : ToolCallSpec) : ToolResult :=
  match tc.parseOutcome with
  | Except.error msg => ⟨false, PyVal.null, some msg, 0⟩
  | Except.ok _ =>
    match tc.callOutcome with
    | Except.error msg => ⟨false, PyVal.null, some msg, 0⟩
    | Except.ok resp =>
      if resp.success then ⟨true, resp.data, none, resp.status_code⟩
      else ⟨false, PyVal.null, resp.error, resp.status_code⟩

/-- An LLM completion as `ask` consumes it: text content and the (possibly
empty, for falsy `tool_calls`) list of requested tool calls. -/
structure LLMResp where
  content : String
  tool_calls : List ToolCallSpec

/-- The wrapping `ask` applies to any exception escaping its `try` block:
`SocketAgentError("Failed to process question: {e}")`. -/
def wrapErr (e : String) : String := "Failed to process question: " ++ e

/-- Embedding of the history trim in `ask`: keep the most recent 20 entries
(`history[-20:]`) once the list exceeds 20. -/
def trimHistory (h : List Msg) : List Msg :=
  if h.length > 20 then h.drop (h.length - 20) else h

/-- Embedding of `SocketAgent.ask`: on a tool-free first completion its
content is the answer; otherwise every requested tool call is executed in
order and the second completion's content is the answer. The user question
and the answer are appended to the history, which is then trimmed. A raised
completion exception is wrapped via `wrapErr`. The result carries the
answer, the new history, and the tool-result records produced. -/
def ask (history : List Msg) (question : String)
    (firstOutcome secondOutcome : Except String LLMResp) :
    Except String (String × List Msg × List ToolResult) :=
  match firstOutcome with
  | Except.error e => Except.error (wrapErr e)
  | Except.ok resp =>
    if resp.tool_calls.isEmpty then
      Except.ok (resp.content,
        trimHistory (history ++ [⟨"user", question⟩, ⟨"assistant", resp.content⟩]),
        [])
    else
      let tool_results := resp.tool_calls.map execute_tool_call
      match secondOutcome with
      | Except.error e => Except.error (wrapErr e)
      | Except.ok fresp =>
        Except.ok (fresp.content,
          trimHistory (history ++ [⟨"user", question⟩, ⟨"assistant", fresp.content⟩]),
          tool_results)

/-- C7: `ask` either returns an answer or fails with exactly the coarse
wrapped error, whose message preserves the original failure's message (the
failure being one of the two LLM completions — every other fallible step is
caught internally); and a failure in a single tool call's argument parsing
or execution produces a failure record (success false, an error message,
status 0) rather than aborting the loop. -/
theorem C7_ask_wraps_failures (history : List Msg) (question : String)
    (fo so : Except String LLMResp) (tc : ToolCallSpec) (msg : String)
    (hm : tc.parseOutcome = Except.error msg ∨ tc.callOutcome = Except.error msg) :
    ((∃ ans h' tr, ask history question fo so = Except.ok (ans, h', tr)) ∨
     (∃ e, ask history question fo so = Except.error (wrapErr e) ∧
       (fo = Except.error e ∨ so = Except.error e))) ∧
    (execute_tool_call tc).success = false ∧
    (execute_tool_call tc).error.isSome = true ∧
    (execute_tool_call tc).status_code = 0 := by
  refine ⟨?_, ?_⟩
  · cases fo with
    | error e => exact Or.inr ⟨e, rfl, Or.inl rfl⟩
    | ok resp =>
      by_cases hc : resp.tool_calls.isEmpty
      · refine Or.inl ⟨resp.content,
          trimHistory (history ++ [⟨"user", question⟩, ⟨"assistant", resp.content⟩]),
          [], ?_⟩
        simp [ask, hc]
      · cases so with
        | error e =>
          refine Or.inr ⟨e, ?_, Or.inr rfl⟩
          simp [ask, hc]
        | ok fresp =>
          refine Or.inl ⟨fresp.content,
            trimHistory (history ++ [⟨"user", question⟩, ⟨"assistant", fresp.content⟩]),
            resp.tool_calls.map execute_tool_call, ?_⟩
          simp [ask, hc]
  · rcases hm with hm | hm
    · simp [execute_tool_call, hm]
    · cases hp : tc.parseOutcome with
      | error m => simp [execute_tool_call, hp]
      | ok u => simp [execute_tool_call, hp, hm]

/-- Witness for C7: a tool call whose argument payload fails to parse yields
a failure record, and the surrounding `ask` still completes with the second
completion's answer. -/
theorem C7_ask_wraps_witness :
    ((⟨"call_1", "list_items", "not json", Except.error "Expecting value",
        Except.ok ⟨true, 200, PyVal.null, none⟩⟩ : ToolCallSpec).parseOutcome =
      Except.error "Expecting value" ∨
     (⟨"call_1", "list_items", "not json", Except.error "Expecting value",
        Except.ok ⟨true, 200, PyVal.null, none⟩⟩ : ToolCallSpec).callOutcome =
      Except.error "Expecting value") ∧
    (((∃ ans h' tr,
        ask [] "list products"
          (Except.ok ⟨"", [⟨"call_1", "list_items", "not json",
            Except.error "Expecting value",
            Except.ok ⟨true, 200, PyVal.null, none⟩⟩]⟩)
          (Except.ok ⟨"done", []⟩) = Except.ok (ans, h', tr)) ∨
      (∃ e, ask [] "list products"
          (Except.ok ⟨"", [⟨"call_1", "list_items", "not json",
            Except.error "Expecting value",
            Except.ok ⟨true, 200, PyVal.null, none⟩⟩]⟩)
          (Except.ok ⟨"done", []⟩) = Except.error (wrapErr e) ∧
        ((Except.ok (⟨"", [⟨"call_1", "list_items", "not json",
            Except.error "Expecting value",
            Except.ok ⟨true, 200, PyVal.null, none⟩⟩]⟩ : LLMResp)) = Except.error e ∨
         (Except.ok (⟨"done", []⟩ : LLMResp)) = Except.error e))) ∧
    (execute_tool_call ⟨"call_1", "list_items", "not json",
        Except.error "Expecting value",
        Except.ok ⟨true, 200, PyVal.null, none⟩⟩).success = false ∧
    (execute_tool_call ⟨"call_1", "list_items", "not json",
        Except.error "Expecting value",
        Except.ok ⟨true, 200, PyVal.null, none⟩⟩).error.isSome = true ∧
    (execute_tool_call ⟨"call_1", "list_items", "not json",
        Except.error "Expecting value",
        Except.ok ⟨true, 200, PyVal.null, none⟩⟩).status_code = 0) :=
  ⟨Or.inl rfl,
    C7_ask_wraps_failures [] "list products"
      (Except.ok ⟨"", [⟨"call_1", "list_items", "not json",
        Except.error "Expecting value",
        Except.ok ⟨true, 200, PyVal.null, none⟩⟩]⟩)
      (Except.ok ⟨"done", []⟩)
      ⟨"call_1", "list_items", "not json", Except.error "Expecting value",
        Except.ok ⟨true, 200, PyVal.null, none⟩⟩
      "Expecting value" (Or.inl rfl)⟩

theorem trimHistory_length (l : List Msg) : (trimHistory l).length ≤ 20 := by
  unfold trimHistory
  split_ifs with h
  · simp only [List.length_drop]
    omega
  · omega

theorem trimHistory_suffix (l : List Msg) : List.IsSuffix (trimHistory l) l := by
  unfold trimHistory
  split_ifs with h
  · exact ⟨l.take (l.length - 20), List.take_append_drop _ l⟩
  · exact ⟨[], rfl⟩

/-- C8: whenever `ask` completes, the returned history is the previous
history extended by exactly the user question and the final answer, trimmed
to the most recent 20 entries by discarding the oldest first — so it has at
most 20 entries and is a suffix of the extended history (no intermediate
assistant tool-call or tool-result message is appended). -/
theorem C8_history_bounded (history : List Msg) (question ans : String)
    (fo so : Except String LLMResp) (h' : List Msg) (tr : List ToolResult)
    (h : ask history question fo so = Except.ok (ans, h', tr)) :
    h'.length ≤ 20 ∧
    h' = trimHistory (history ++ [⟨"user", question⟩, ⟨"assistant", ans⟩]) ∧
    List.IsSuffix h' (history ++ [⟨"user", question⟩, ⟨"assistant", ans⟩]) := by
  have key : h' = trimHistory (history ++ [⟨"user", question⟩, ⟨"assistant", ans⟩]) := by
    cases fo with
    | error e => simp [ask] at h
    | ok resp =>
      by_cases hc : resp.tool_calls.isEmpty
      · simp only [ask, hc, if_pos, Except.ok.injEq, Prod.mk.injEq] at h
        obtain ⟨h1, h2, h3⟩ := h
        rw [← h1, ← h2]
      · cases so with
        | error e => simp [ask, hc] at h
        | ok fresp =>
          simp only [ask, hc, if_neg, Except.ok.injEq, Prod.mk.injEq,
            Bool.false_eq_true] at h
          obtain ⟨h1, h2, h3⟩ := h
          rfl
  refine ⟨?_, key, ?_⟩
  · rw [key]
    exact trimHistory_length _
  · rw [key]
    exact trimHistory_suffix _

/-- Witness for C8: a tool-free completion appends exactly the question and
the answer to an empty history. -/
theorem C8_history_bounded_witness :
    ask [] "q" (Except.ok ⟨"hi", []⟩) (Except.ok ⟨"x", []⟩) =
      Except.ok ("hi", [⟨"user", "q"⟩, ⟨"assistant", "hi"⟩], []) ∧
    (([⟨"user", "q"⟩, ⟨"assistant", "hi"⟩] : List Msg).length ≤ 20 ∧
    ([⟨"user", "q"⟩, ⟨"assistant", "hi"⟩] : List Msg) =
      trimHistory ([] ++ [⟨"user", "q"⟩, ⟨"assistant", "hi"⟩]) ∧
    List.IsSuffix ([⟨"user", "q"⟩, ⟨"assistant", "hi"⟩] : List Msg)
      ([] ++ [⟨"user", "q"⟩, ⟨"assistant", "hi"⟩])) :=
  ⟨rfl, C8_history_bounded [] "q" "hi" (Except.ok ⟨"hi", []⟩)
    (Except.ok ⟨"x", []⟩) [⟨"user", "q"⟩, ⟨"assistant", "hi"⟩] [] rfl⟩

/-! ## Local-model tool-call extractor

Embeds `OllamaProvider._extract_tool_calls` from
src/socket_agent_client/llm/ollama.py. `json.loads` is modelled as an
abstract total function `jsonParse : String → Option PyVal` (`none` models a
raised parse exception, which the code catches and converts to `None`); the
wrapping of the parsed payload into an `OllamaToolCall` object cannot fail
and its hash-derived id is unobservable, so the parsed payload itself stands
for the tool call. -/

/-- The marker the extractor searches for. -/
def toolCallMarker : List Char := "TOOL_CALL:".toList

/-- Model of Python `haystack.find(needle)` for a non-empty needle: index of
the first occurrence, `none` for `-1`. -/
def subIdx (needle : List Char) : List Char → Option Nat
  | [] => if needle.isPrefixOf ([] : List Char) then some 0 else none
  | c :: rest =>
    if needle.isPrefixOf (c :: rest) then some 0
    else (subIdx needle rest).map (fun i => i + 1)

/-- Model of Python `s.find(c, start)` for a single character: index of the
first occurrence at position `start` or later. -/
def charIdxFrom (c : Char) (cs : List Char) (start : Nat) : Option Nat :=
  ((cs.drop start).findIdx? (fun x => x == c)).map (fun i => i + start)

/-- The brace-matching loop: walk the characters from `json_start` keeping a
running count; report the index where the count returns to zero on a closing
brace (the `break`), else the final count after the loop. -/
def braceScan : List Char → Int → Nat → (Option Nat × Int)
  | [], count, _ => (none, count)
  | c :: rest, count, i =>
    let count' := if c = braceOpen then count + 1
      else if c = braceClose then count - 1 else count
    if c = braceClose ∧ count' = 0 then (some i, count')
    else braceScan rest count' (i + 1)

/-- Embedding of `OllamaProvider._extract_tool_calls`: bail out with `None`
for empty input or a missing marker, a missing opening brace after the
marker, an unbalanced brace scan, or a failing JSON parse; otherwise return
the single-element tool-call list. -/
def extract_tool_calls (jsonParse : String → Option PyVal) (text : String) :
    Option (List PyVal) :=
  let cs := text.toList
  if text.isEmpty || !(subIdx toolCallMarker cs).isSome then none
  else
    match subIdx toolCallMarker cs with
    | none => none
    | some start =>
      match charIdxFrom braceOpen cs start with
      | none => none
      | some js =>
        let scan := braceScan (cs.drop js) 0 js
        let json_end := match scan.1 with
          | some i => i
          | none => js
        if scan.2 ≠ 0 then none
        else
          match jsonParse (String.mk ((cs.drop js).take (json_end + 1 - js))) with
          | some d => some [d]
          | none => none

/-- C9: for every input string (and every behaviour of the JSON parser) the
extractor returns `None` or a single-element tool-call list — it never
propagates a failure; in particular a marker followed by no opening brace,
by unbalanced braces, or by JSON the parser rejects each yield `None`. -/
theorem C9_extractor_none_or_singleton (p : String → Option PyVal) (t : String) :
    (extract_tool_calls p t = none ∨ ∃ d, extract_tool_calls p t = some [d]) ∧
    extract_tool_calls p "TOOL_CALL: no json here" = none ∧
    extract_tool_calls p "TOOL_CALL: \x7b\"name\": \"x\"" = none ∧
    extract_tool_calls (fun _ => none) "TOOL_CALL: \x7b\"name\": \"x\"\x7d" = none := by
  refine ⟨?_, rfl, rfl, rfl⟩
  unfold extract_tool_calls
  dsimp only
  split
  · exact Or.inl rfl
  · split
    · exact Or.inl rfl
    · split
      · exact Or.inl rfl
      · split
        · exact Or.inl rfl
        · split
          · exact Or.inr ⟨_, rfl⟩
          · exact Or.inl rfl

end SocketAgent
